import Mathlib

/-!
Verification of the protocol engine of PyRvDbg (`src/main.py`), a GDB Remote
Serial Protocol client.  The `RSPClient` methods are embedded shallowly:

* the pure framing/parsing code (`_rspEscape`, `_rspUnescape`, the checksum
  computation in `rspCall`, and the packet-splitting loop of
  `_rspConsumePackets`) becomes pure functions on `List Nat` (byte values);
* the stateful socket code (`rspCall`, `poll`, `pause`, `disconnect`,
  `_rspCheckUnexpectedData`, `_rspRecvPacket`, the recv loop of
  `_rspConsumePackets`) becomes explicit state passing over a `Conn` record
  holding the `_connected` flag, the socket's open/closed status, the
  `_pendingData` buffer, and scripts of the results future `select`/`recv`
  calls will produce; every transport and observer interaction is recorded
  in an ordered trace of `Act`s.

Byte values are `Nat`s; relevant ASCII codes: `$` = 36, `#` = 35, `}` = 125,
`T` = 84, `O` = 79, `+` = 43, `*` = 42.
-/

namespace PyRvDbg

/-- From `_rspEscape` in `src/main.py`: the body is `# TODO: do escaping`
followed by `return data` — the identity function. -/
def rspEscape (data : List Nat) : List Nat := data

/-- From `_rspUnescape` in `src/main.py`: the body is `# TODO: do unescaping`
followed by `return data` — the identity function. -/
def rspUnescape (data : List Nat) : List Nat := data

/-- The checksum computed in `rspCall`: `checksum += b` over the (escaped)
payload bytes, then `checksum &= 0xFF`. -/
def rspChecksum (data : List Nat) : Nat := data.sum % 256

/-- One hex digit of Python's `b'%02x'` formatting: lowercase, `0`–`9` are
codes 48–57 and `a`–`f` are codes 97–102. -/
def toHexDigit (n : Nat) : Nat := if n < 10 then 48 + n else 87 + n

/-- The two checksum characters sent by `rspCall` via `b'%02x' % checksum`:
for a value below 256 this is exactly two lowercase hex digits, zero
padded. -/
def checksumBytes (c : Nat) : List Nat := [toHexDigit (c / 16), toHexDigit (c % 16)]

/-- The byte sequence `rspCall` writes for a payload: `$`, the escaped data,
`#`, and the two checksum digits (the code sends these with four separate
`sendall` calls; this is their concatenation). -/
def rspFrame (payload : List Nat) : List Nat :=
  [36] ++ rspEscape payload ++ [35] ++ checksumBytes (rspChecksum (rspEscape payload))

/-- Value of one received hex character, as `binascii.unhexlify` reads it
(accepting both cases); `none` for a non-hex character. -/
def hexVal (c : Nat) : Option Nat :=
  if 48 ≤ c ∧ c ≤ 57 then some (c - 48)
  else if 97 ≤ c ∧ c ≤ 102 then some (c - 87)
  else if 65 ≤ c ∧ c ≤ 70 then some (c - 55)
  else none

/-- `binascii.unhexlify`: pairs of hex characters to bytes; `none` models
the `binascii.Error` raised on an odd-length or non-hex input. -/
def unhexlify : List Nat → Option (List Nat)
  | [] => some []
  | [_] => none
  | a :: b :: rest => do
      let va ← hexVal a
      let vb ← hexVal b
      let tail ← unhexlify rest
      pure ((16 * va + vb) :: tail)

/-- Python's `b'%x'` formatting of a nonnegative integer: lowercase hex
digits, no padding, `"0"` for zero (`Nat.toDigits 16` produces exactly
these characters). -/
def hexFmt (n : Nat) : List Nat := (Nat.toDigits 16 n).map Char.toNat

/-- The request payload built by `read(addr, size)`:
`b'm%x,%x' % (addr, size)` (`m` = 109, `,` = 44). -/
def readPayload (addr size : Nat) : List Nat :=
  [109] ++ hexFmt addr ++ [44] ++ hexFmt size

/-!
The packet-splitting loop of `_rspConsumePackets`.  The source repeatedly
takes `pos = self._pendingData.find(b'#')`, processes the bytes before that
first `#`, and continues with the bytes after it; the bytes after the last
`#` stay in `_pendingData`.  `splitSegs` computes all those segments and the
trailing remainder in one pass.
-/

/-- Split a buffer at every `#` (35): returns the list of segments that
precede each `#` in order, and the trailing bytes after the last `#`
(which the source keeps in `_pendingData`). -/
def splitSegs : List Nat → List (List Nat) × List Nat
  | [] => ([], [])
  | b :: bs =>
    if b = 35 then
      (([] : List Nat) :: (splitSegs bs).1, (splitSegs bs).2)
    else
      match splitSegs bs with
      | (s :: segs, rem) => ((b :: s) :: segs, rem)
      | ([], rem) => ([], b :: rem)

/-- `pkt.find(b'$')` followed by `pkt = pkt[pos2+1:]`: drop everything up to
and including the first `$` (36); `none` models `pos2 == -1` (the
"Malformed data" branch). -/
def dropAfterDollar : List Nat → Option (List Nat)
  | [] => none
  | b :: bs => if b = 36 then some bs else dropAfterDollar bs

/-- The externally visible effects of the packet loop, in order:
`malformed` is the `print('Malformed data:', pkt)` branch, `statePaused`
is the `self._ui.onStateUpdated('paused')` call of the `T` branch,
`logMsg` is the `print('Log:', unhexlify(pkt[1:]))` branch (carrying the
decoded bytes the print shows), and `ignored` is the
`print('Ignored:', ret)` line that fires when a second non-notification
packet overwrites `ret`. -/
inductive RspEvent
  | malformed (pkt : List Nat)
  | statePaused
  | logMsg (txt : List Nat)
  | ignored (pkt : List Nat)
  deriving DecidableEq, BEq

/-- How the packet loop of `_rspConsumePackets` ends: `done` is the
`break` once no `#` remains (carrying the final `ret`), `raised` is the
`binascii.Error` thrown by `unhexlify(pkt[1:])` on an `O` packet whose
remainder is odd-length or non-hex — the exception aborts the loop and
propagates, and `raised` carries the segments not yet consumed. -/
inductive LoopExit
  | done (ret : Option (List Nat))
  | raised (restSegs : List (List Nat))
  deriving DecidableEq, BEq

/-- Reassemble segments and trailing remainder into the byte buffer they
were split from: the `_pendingData` contents at the moment the packet loop
stops consuming (each consumed segment removed everything up to and
including its `#`). -/
def joinHash : List (List Nat) → List Nat → List Nat
  | [], rem => rem
  | s :: segs, rem => s ++ 35 :: joinHash segs rem

/-- Body of the `while(True)` packet loop of `_rspConsumePackets`, applied to
the already-split segments, threading the `ret` variable: a segment with no
`$` is malformed; a packet of length at least 3 whose first byte is `T` (84)
updates the UI state and is not returned; one whose first byte is `O` (79)
has its remainder fed to `unhexlify` for the log print — on a valid hex
remainder it is logged and not returned, on an invalid one
`binascii.Error` aborts the loop (`LoopExit.raised`, with the unconsumed
segments); any other packet replaces `ret`, logging the previous `ret`
as ignored when there was one. -/
def processSegs : List (List Nat) → Option (List Nat) → List RspEvent × LoopExit
  | [], ret => ([], LoopExit.done ret)
  | seg :: rest, ret =>
    match dropAfterDollar seg with
    | none =>
        (RspEvent.malformed seg :: (processSegs rest ret).1, (processSegs rest ret).2)
    | some pkt =>
        if 3 ≤ pkt.length ∧ pkt.headD 0 = 84 then
          (RspEvent.statePaused :: (processSegs rest ret).1, (processSegs rest ret).2)
        else if 3 ≤ pkt.length ∧ pkt.headD 0 = 79 then
          match unhexlify (pkt.drop 1) with
          | some txt =>
              (RspEvent.logMsg txt :: (processSegs rest ret).1, (processSegs rest ret).2)
          | none => ([], LoopExit.raised rest)
        else
          match ret with
          | some old =>
              (RspEvent.ignored old :: (processSegs rest (some pkt)).1,
               (processSegs rest (some pkt)).2)
          | none => processSegs rest (some pkt)

/-- The parsing stage of `_rspConsumePackets` on a fully received buffer:
split at each `#`, run the packet loop with `ret = None`.  On normal
completion the result carries the final `ret` and what is left in
`_pendingData`; when the loop raises `binascii.Error` the error carries
the `_pendingData` contents at the raise (the buffer's unconsumed tail),
and the events that happened before the raise are still reported. -/
def rspConsumePackets (buf : List Nat) :
    List RspEvent × Except (List Nat) (Option (List Nat) × List Nat) :=
  match processSegs (splitSegs buf).1 none with
  | (evs, LoopExit.done ret) => (evs, Except.ok (ret, (splitSegs buf).2))
  | (evs, LoopExit.raised restSegs) =>
      (evs, Except.error (joinHash restSegs (splitSegs buf).2))

/-- The non-notification packets of a segment list, in arrival order: the
packets the loop's final branch assigns to `ret`. -/
def respPackets : List (List Nat) → List (List Nat)
  | [] => []
  | seg :: rest =>
    match dropAfterDollar seg with
    | none => respPackets rest
    | some pkt =>
        if 3 ≤ pkt.length ∧ (pkt.headD 0 = 84 ∨ pkt.headD 0 = 79) then
          respPackets rest
        else
          pkt :: respPackets rest

/-- The packets reported by `print('Ignored:', ...)`, in order. -/
def ignoredPackets (evs : List RspEvent) : List (List Nat) :=
  evs.filterMap fun e =>
    match e with
    | RspEvent.ignored p => some p
    | _ => none

/-- Whether processing this segment raises `binascii.Error`: its packet is
classified as an `O` log notification (length ≥ 3, first byte 79; a first
byte of 79 is in particular not 84, so the `T` test above it fails) and
the remainder after the `O` is odd-length or non-hex. -/
def segRaises (seg : List Nat) : Bool :=
  match dropAfterDollar seg with
  | none => false
  | some pkt =>
      decide (3 ≤ pkt.length ∧ pkt.headD 0 = 79 ∧ unhexlify (pkt.drop 1) = none)

/-!
The stateful layer.  A `Conn` is the client-visible state: the `_connected`
flag, whether `self._socket` is still open (a `close()`d socket makes every
further `send`/`recv`/`select` raise `OSError`), the `_pendingData` buffer,
and two scripts describing what the transport will do: `peeks` holds the
successive results of `select.select([sock], [], [], 0)` and `chunks` the
successive return values of `self._socket.recv(...)` — an empty chunk is
the `b''` a closed peer produces, and an exhausted chunk list means a recv
finds no data and blocks until the 10-second timeout raises.
Every observable interaction is an `Act` in an ordered trace.
-/

/-- The execution states `onStateUpdated` is called with (`'paused'`,
`'running'`, or `None`). -/
inductive ExecState
  | paused
  | running
  deriving DecidableEq, BEq

/-- One observable interaction of the client, in trace order. -/
inductive Act
  /-- `select.select([sock], [], [], 0)` returned, reporting whether data is
  readable; timeout 0, never blocks. -/
  | peek (ready : Bool)
  /-- `recv` returned the given bytes without waiting (`[]` is the `b''` of
  a peer that closed the stream). -/
  | recv (got : List Nat)
  /-- `recv` was issued with no data available: it blocks and the 10-second
  socket timeout eventually raises `socket.timeout`. -/
  | recvBlockedTimeout
  /-- `recv` was issued on an already-`close()`d socket: raises `OSError`
  immediately. -/
  | recvErrClosed
  /-- `sendall` wrote the given bytes to the transport. -/
  | send (data : List Nat)
  /-- `self._socket.close()`. -/
  | sockClose
  /-- `self._ui.onStateUpdated(s)` (`none` is Python's `None`). -/
  | uiState (s : Option ExecState)
  deriving DecidableEq, BEq

/-- The exceptions the client's receive path can raise. -/
inductive PyExc
  /-- `socket.timeout` after a blocking `recv` saw no data for 10 seconds. -/
  | timeout
  /-- `IndexError` from `self._pendingData[-3]` when fewer than 3 bytes are
  buffered. -/
  | indexError
  /-- `OSError`/`ValueError` from using a closed socket. -/
  | closedSock
  /-- `binascii.Error` from `unhexlify(pkt[1:])` on a malformed `O` log
  packet. -/
  | binasciiError
  deriving DecidableEq, BEq

/-- Client state plus the transport script. -/
structure Conn where
  connected : Bool
  sockOpen : Bool
  pending : List Nat
  peeks : List Bool
  chunks : List (List Nat)
  deriving DecidableEq, BEq

/-- `disconnect` in `src/main.py`: clear `_connected`, close the socket,
call `onStateUpdated(None)` (closing an already-closed socket is a no-op
in Python, so this never raises). -/
def disconnectOp (c : Conn) : List Act × Conn :=
  ([Act.sockClose, Act.uiState none],
   { c with connected := false, sockOpen := false })

/-- Result of the `while True: data = self._socket.recv(30000) ...` loop of
`_rspConsumePackets` (run on an open socket): either the loop broke with a
buffer whose third-from-last byte is `#`, or a recv returned `b''`, or an
exception was raised; each constructor carries the `_pendingData` contents
and the unconsumed part of the recv script at that point. -/
inductive RecvLoopRes
  | frame (pending : List Nat) (rest : List (List Nat))
  | sawEof (pending : List Nat) (rest : List (List Nat))
  | fail (e : PyExc) (pending : List Nat) (rest : List (List Nat))
  deriving DecidableEq, BEq

/-- The recv loop of `_rspConsumePackets`, for an open socket: each
iteration receives one chunk (blocking into a timeout if none is scripted),
returns `sawEof` on `b''` (the `if not data:` branch), appends to
`_pendingData` otherwise, raises `IndexError` if fewer than 3 bytes are
buffered (Python's `self._pendingData[-3]`), and breaks once the
third-from-last buffered byte is `#` (35). -/
def recvLoopAux : List Nat → List (List Nat) → List Act × RecvLoopRes
  | pending, [] => ([Act.recvBlockedTimeout], RecvLoopRes.fail PyExc.timeout pending [])
  | pending, d :: rest =>
    if d = [] then
      ([Act.recv []], RecvLoopRes.sawEof pending rest)
    else
      let p := pending ++ d
      if 3 ≤ p.length then
        if p.getD (p.length - 3) 0 = 35 then
          ([Act.recv d], RecvLoopRes.frame p rest)
        else
          (Act.recv d :: (recvLoopAux p rest).1, (recvLoopAux p rest).2)
      else ([Act.recv d], RecvLoopRes.fail PyExc.indexError p rest)

/-- Map the packet-loop events to observer calls: only the `T` branch
touches the UI (`onStateUpdated('paused')`); the other events are console
prints. -/
def eventActs (evs : List RspEvent) : List Act :=
  evs.filterMap fun e =>
    match e with
    | RspEvent.statePaused => some (Act.uiState (some ExecState.paused))
    | _ => none

/-- `_rspConsumePackets`: run the recv loop, then the packet loop on the
accumulated buffer; `.ok none` is the `return None` taken after the
`disconnect()` of the `if not data:` branch, and errors — including the
packet loop's `binascii.Error` — propagate to the caller together with
the state (in particular `_pendingData`) at the point they were raised;
the UI updates of packets processed before a raise have already
happened and stay in the trace. -/
def rspConsumePacketsOp (c : Conn) :
    List Act × Except (PyExc × Conn) (Option (List Nat) × Conn) :=
  if c.sockOpen then
    match recvLoopAux c.pending c.chunks with
    | (as, RecvLoopRes.fail e p rest) =>
        (as, Except.error (e, { c with pending := p, chunks := rest }))
    | (as, RecvLoopRes.sawEof p rest) =>
        let (as2, c2) := disconnectOp { c with pending := p, chunks := rest }
        (as ++ as2, Except.ok (none, c2))
    | (as, RecvLoopRes.frame p rest) =>
        match rspConsumePackets p with
        | (evs, Except.ok (ret, pd)) =>
            (as ++ eventActs evs, Except.ok (ret, { c with pending := pd, chunks := rest }))
        | (evs, Except.error pd) =>
            (as ++ eventActs evs,
             Except.error (PyExc.binasciiError, { c with pending := pd, chunks := rest }))
  else ([Act.recvErrClosed], Except.error (PyExc.closedSock, c))

/-- `_rspRecvPacket` with explicit fuel: `while True: ret =
self._rspConsumePackets(); if ret != None: return ret`.  Every successful
loop iteration consumes at least one scripted chunk, so
`c.chunks.length + 1` units of fuel always suffice; the fuel-exhausted
branch is unreachable under that bound. -/
def rspRecvPacketFuel : Nat → Conn → List Act × Except (PyExc × Conn) (List Nat × Conn)
  | 0, c => ([], Except.error (PyExc.timeout, c))
  | fuel + 1, c =>
    match rspConsumePacketsOp c with
    | (as, Except.error ec) => (as, Except.error ec)
    | (as, Except.ok (some r, c2)) => (as, Except.ok (r, c2))
    | (as, Except.ok (none, c2)) =>
        (as ++ (rspRecvPacketFuel fuel c2).1, (rspRecvPacketFuel fuel c2).2)

/-- `_rspRecvPacket`. -/
def rspRecvPacketOp (c : Conn) : List Act × Except (PyExc × Conn) (List Nat × Conn) :=
  rspRecvPacketFuel (c.chunks.length + 1) c

/-- `_rspCheckUnexpectedData`: a zero-timeout `select`, and a consume pass
only when it reports readable data (the `print('Unexpected:', data)` on a
non-`None` result is a console print).  `select` on a closed socket raises
immediately. -/
def rspCheckUnexpectedOp (c : Conn) : List Act × Except (PyExc × Conn) Conn :=
  if c.sockOpen then
    let ready := c.peeks.headD false
    let c1 := { c with peeks := c.peeks.tail }
    if ready then
      match rspConsumePacketsOp c1 with
      | (as, Except.error ec) => (Act.peek true :: as, Except.error ec)
      | (as, Except.ok (_, c2)) => (Act.peek true :: as, Except.ok c2)
    else ([Act.peek false], Except.ok c1)
  else ([], Except.error (PyExc.closedSock, c))

/-- `_rspGetAck`: `recv(1)` takes one byte, leaving the rest of an arriving
chunk buffered; the `'+'` comparison only drives prints and a return value
that `rspCall` discards. -/
def getAckOp (c : Conn) : List Act × Except (PyExc × Conn) Conn :=
  if c.sockOpen then
    match c.chunks with
    | [] => ([Act.recvBlockedTimeout], Except.error (PyExc.timeout, c))
    | d :: rest =>
        ([Act.recv (d.take 1)],
         Except.ok { c with chunks := if d.length ≤ 1 then rest else d.drop 1 :: rest })
  else ([Act.recvErrClosed], Except.error (PyExc.closedSock, c))

/-- What `rspCall` returns to its caller. -/
inductive CallRet
  /-- the `raise Exception('Not connected')` taken outside the `try`. -/
  | raisedNotConnected
  /-- `return True` (the `waitForResp=False` path). -/
  | retTrue
  /-- the implicit `return None` after the `except` branch printed the
  error and called `disconnect()` — no exception reaches the caller. -/
  | retNone
  /-- `return self._rspUnescape(self._rspRecvPacket())`. -/
  | retBytes (bs : List Nat)
  deriving DecidableEq, BEq

/-- `rspCall data waitForAck waitForResp`: raise if not connected; inside
the `try`, drain unexpected data, send `$`, the escaped payload, `#` and
the checksum digits, optionally read the one-byte ack, then either return
`True` or block for the response packet.  Any exception is printed and
answered by `disconnect()` and a `None` return.  `sendall` on an open
socket writes and succeeds; on a closed one it raises, which the `except`
branch turns into the disconnect-and-return-`None` path. -/
def rspCallOp (c : Conn) (data : List Nat) (waitForAck waitForResp : Bool) :
    List Act × CallRet × Conn :=
  if c.connected then
    let d := rspEscape data
    match rspCheckUnexpectedOp c with
    | (as, Except.error (_, cE)) =>
        let (as2, c2) := disconnectOp cE
        (as ++ as2, CallRet.retNone, c2)
    | (as, Except.ok c1) =>
      if c1.sockOpen then
        let sendActs := [Act.send [36], Act.send d, Act.send [35],
                         Act.send (checksumBytes (rspChecksum d))]
        match (if waitForAck then getAckOp c1 else ([], Except.ok c1)) with
        | (asA, Except.error (_, cE)) =>
            let (as2, c2) := disconnectOp cE
            (as ++ sendActs ++ asA ++ as2, CallRet.retNone, c2)
        | (asA, Except.ok c2) =>
          if waitForResp then
            match rspRecvPacketOp c2 with
            | (asR, Except.ok (r, c3)) =>
                (as ++ sendActs ++ asA ++ asR, CallRet.retBytes (rspUnescape r), c3)
            | (asR, Except.error (_, cE)) =>
                let (as2, c3) := disconnectOp cE
                (as ++ sendActs ++ asA ++ asR ++ as2, CallRet.retNone, c3)
          else (as ++ sendActs ++ asA, CallRet.retTrue, c2)
      else
        let (as2, c2) := disconnectOp c1
        (as ++ as2, CallRet.retNone, c2)
  else ([], CallRet.raisedNotConnected, c)

/-- `poll`: return `False` when not connected; otherwise run
`_rspCheckUnexpectedData` inside a `try`, answering any exception with
`disconnect()`; returns `True` either way. -/
def pollOp (c : Conn) : List Act × Bool × Conn :=
  if c.connected then
    match rspCheckUnexpectedOp c with
    | (as, Except.ok c1) => (as, true, c1)
    | (as, Except.error (_, cE)) =>
        let (as2, c2) := disconnectOp cE
        (as ++ as2, true, c2)
  else ([], false, c)

/-- `pause`: `self._socket.sendall(b'\x03'); return True` — one raw byte,
no framing, no `try`, and no read of any kind. -/
def pauseOp (c : Conn) : List Act × Except (PyExc × Conn) (Bool × Conn) :=
  if c.sockOpen then ([Act.send [3]], Except.ok (true, c))
  else ([], Except.error (PyExc.closedSock, c))

/-- `read(addr, size)`: `unhexlify(self.rspCall(b'm%x,%x' % (addr, size)))`.
When `rspCall` does not return bytes, Python's `unhexlify` raises; that is
modeled as `none`. -/
def readOp (c : Conn) (addr size : Nat) : List Act × Option (List Nat) × Conn :=
  match rspCallOp c (readPayload addr size) false true with
  | (as, CallRet.retBytes r, c2) => (as, unhexlify r, c2)
  | (as, _, c2) => (as, none, c2)

/-- A lowercase hex digit character code: `0`–`9` or `a`–`f`. -/
def isLowerHexCode (d : Nat) : Prop := (48 ≤ d ∧ d ≤ 57) ∨ (97 ≤ d ∧ d ≤ 102)

/-- Whether an `Act` writes outbound bytes to the transport. -/
def isSendAct : Act → Bool
  | Act.send _ => true
  | _ => false

/-! ### Basic facts about the hex rendering -/

lemma toHexDigit_isLowerHex {n : Nat} (h : n < 16) : isLowerHexCode (toHexDigit n) := by
  unfold toHexDigit isLowerHexCode
  split <;> omega

lemma hexVal_toHexDigit {n : Nat} (h : n < 16) : hexVal (toHexDigit n) = some n := by
  unfold toHexDigit hexVal
  split_ifs <;> first | omega | (congr 1; omega)

lemma toHexDigit_ne_hash (n : Nat) : toHexDigit n ≠ 35 := by
  unfold toHexDigit; split <;> omega

lemma toHexDigit_ne_dollar (n : Nat) : toHexDigit n ≠ 36 := by
  unfold toHexDigit; split <;> omega

lemma checksumBytes_not_hash (c : Nat) : 35 ∉ checksumBytes c := by
  intro h
  rcases List.mem_cons.mp h with h1 | h1
  · exact toHexDigit_ne_hash _ h1.symm
  · exact toHexDigit_ne_hash _ (List.mem_singleton.mp h1).symm

lemma checksumBytes_not_dollar (c : Nat) : 36 ∉ checksumBytes c := by
  intro h
  rcases List.mem_cons.mp h with h1 | h1
  · exact toHexDigit_ne_dollar _ h1.symm
  · exact toHexDigit_ne_dollar _ (List.mem_singleton.mp h1).symm

lemma rspChecksum_lt (data : List Nat) : rspChecksum data < 256 :=
  Nat.mod_lt _ (by omega)

lemma unhexlify_checksumBytes {c : Nat} (h : c < 256) :
    unhexlify (checksumBytes c) = some [c] := by
  have h1 : c / 16 < 16 := Nat.div_lt_of_lt_mul (by omega)
  have h2 : c % 16 < 16 := Nat.mod_lt _ (by omega)
  simp only [checksumBytes, unhexlify, hexVal_toHexDigit h1, hexVal_toHexDigit h2]
  simp [Nat.div_add_mod]

/-- **C8.** Every outgoing frame is `$<payload>#<2-hex-checksum>`: `rspCall`
writes the `$`, the escaped payload, the `#`, and a two-character checksum
field whose characters are lowercase hex digits and which reads back
(as a hex number) as the sum of the escaped payload bytes mod 256. -/
theorem frame_checksum_form (p : List Nat) :
    rspFrame p = [36] ++ rspEscape p ++ [35] ++ checksumBytes (rspChecksum (rspEscape p)) ∧
    rspChecksum (rspEscape p) = (rspEscape p).sum % 256 ∧
    (checksumBytes (rspChecksum (rspEscape p))).length = 2 ∧
    unhexlify (checksumBytes (rspChecksum (rspEscape p))) = some [rspChecksum (rspEscape p)] ∧
    ∀ d ∈ checksumBytes (rspChecksum (rspEscape p)), isLowerHexCode d := by
  refine ⟨rfl, rfl, rfl, unhexlify_checksumBytes (rspChecksum_lt _), ?_⟩
  intro d hd
  have hq : rspChecksum (rspEscape p) / 16 < 16 :=
    Nat.div_lt_of_lt_mul (by have := rspChecksum_lt (rspEscape p); omega)
  have hr : rspChecksum (rspEscape p) % 16 < 16 := Nat.mod_lt _ (by omega)
  rcases List.mem_cons.mp hd with h1 | h1
  · exact h1 ▸ toHexDigit_isLowerHex hq
  · exact (List.mem_singleton.mp h1) ▸ toHexDigit_isLowerHex hr

/-- **C1 (code behavior at the failing input).** The incoming buffer
`$abc#00` carries checksum digits `00`, which disagree with the checksum of
the payload `abc` (0x26 = 38); `_rspConsumePackets` nevertheless delivers
`abc` as the response with no error event — the received checksum digits
are never compared against anything (they are simply left in
`_pendingData` and skipped by the next frame's `$`-scan). -/
theorem corrupt_checksum_still_delivered :
    rspConsumePackets [36, 97, 98, 99, 35, 48, 48] =
      ([], Except.ok (some [97, 98, 99], [48, 48])) ∧
    unhexlify [48, 48] = some [0] ∧
    rspChecksum [97, 98, 99] = 38 ∧ (38 : Nat) ≠ 0 :=
  ⟨rfl, by decide⟩

/-- **C2 (code behavior at the failing input).** `_rspEscape` is the
identity, so the reserved byte `#` (35) inside the payload `a#b` is sent
unescaped; decoding the resulting frame yields the truncated packet `a`
plus a malformed-data complaint, not the original payload: the claimed
escape/round-trip does not happen. -/
theorem escape_roundtrip_fails_on_reserved :
    rspEscape [97, 35, 98] = [97, 35, 98] ∧
    rspFrame [97, 35, 98] = [36, 97, 35, 98, 35, 101, 54] ∧
    rspConsumePackets (rspFrame [97, 35, 98]) =
      ([RspEvent.malformed [98]], Except.ok (some [97], [101, 54])) ∧
    some [97] ≠ some [97, 35, 98] :=
  ⟨by decide, by decide, rfl, by decide⟩

/-! ### Structure of the segment splitter -/

lemma splitSegs_no_hash : ∀ xs : List Nat, 35 ∉ xs → splitSegs xs = ([], xs) := by
  intro xs
  induction xs with
  | nil => intro _; rfl
  | cons b bs ih =>
    intro h
    rw [List.mem_cons] at h
    push_neg at h
    obtain ⟨hb, hbs⟩ := h
    simp [splitSegs, Ne.symm hb, ih hbs]

lemma splitSegs_append_hash :
    ∀ xs ys : List Nat, 35 ∉ xs →
      splitSegs (xs ++ 35 :: ys) = (xs :: (splitSegs ys).1, (splitSegs ys).2) := by
  intro xs
  induction xs with
  | nil => intro ys _; simp [splitSegs]
  | cons b bs ih =>
    intro ys h
    rw [List.mem_cons] at h
    push_neg at h
    obtain ⟨hb, hbs⟩ := h
    simp [splitSegs, Ne.symm hb, ih ys hbs]

lemma dropAfterDollar_cons (xs : List Nat) : dropAfterDollar (36 :: xs) = some xs := by
  simp [dropAfterDollar]

lemma dropAfterDollar_append :
    ∀ xs ys : List Nat, 36 ∉ xs → dropAfterDollar (xs ++ 36 :: ys) = some ys := by
  intro xs
  induction xs with
  | nil => intro ys _; simp [dropAfterDollar]
  | cons b bs ih =>
    intro ys h
    rw [List.mem_cons] at h
    push_neg at h
    obtain ⟨hb, hbs⟩ := h
    simp [dropAfterDollar, Ne.symm hb, ih ys hbs]

/-- The parse stage on a single well-formed frame `$pkt#cc` whose payload
contains no raw `#`: one segment, packet `pkt`, remainder `cc`. -/
lemma consume_single_frame (p : List Nat) (h35 : 35 ∉ p) :
    splitSegs (rspFrame p) = ([36 :: p], checksumBytes (rspChecksum p)) := by
  have hx : 35 ∉ (36 :: p) := by
    rw [List.mem_cons]; push_neg
    exact ⟨by omega, h35⟩
  have hb : rspFrame p = (36 :: p) ++ 35 :: checksumBytes (rspChecksum p) := by
    simp [rspFrame, rspEscape]
  rw [hb, splitSegs_append_hash _ _ hx,
      splitSegs_no_hash _ (checksumBytes_not_hash _)]

/-- **C10.** A decoded packet shorter than 3 bytes is never classified as a
notification — the `T`/`O` tests sit under `if len(pkt) >= 3:` — so it
lands in the response slot (`ret`) and produces no event, whatever its
first byte is. -/
theorem short_packet_treated_as_response (p : List Nat)
    (hlen : p.length < 3) (h35 : 35 ∉ p) :
    rspConsumePackets (rspFrame p) =
      ([], Except.ok (some p, checksumBytes (rspChecksum p))) := by
  have hs := consume_single_frame p h35
  have hnot : ¬ (3 ≤ p.length ∧ p.headD 0 = 84) := by rintro ⟨h, _⟩; omega
  have hnot2 : ¬ (3 ≤ p.length ∧ p.headD 0 = 79) := by rintro ⟨h, _⟩; omega
  have hp : processSegs [36 :: p] none = ([], LoopExit.done (some p)) := by
    simp only [processSegs, dropAfterDollar_cons]
    rw [if_neg hnot, if_neg hnot2]
  simp only [rspConsumePackets, hs, hp]

/-- **C10 witness.** The two-byte packet `T0` — first byte `T` — is returned
as response data with no observer event. -/
theorem short_packet_treated_as_response_witness :
    [84, 48].length < 3 ∧
    rspConsumePackets (rspFrame [84, 48]) =
      ([], Except.ok (some [84, 48], checksumBytes (rspChecksum [84, 48]))) :=
  ⟨by decide, short_packet_treated_as_response [84, 48] (by decide) (by decide)⟩

/-- A buffer ending in `#` plus two checksum characters has `#` (35) in
third-from-last position — the condition the recv loop checks. -/
lemma getD_endHash (X : List Nat) (c : Nat) :
    (X ++ 35 :: checksumBytes c).getD ((X ++ 35 :: checksumBytes c).length - 3) 0 = 35 := by
  have hlen : (X ++ 35 :: checksumBytes c).length = X.length + 3 := by
    simp [checksumBytes]
  rw [hlen, Nat.add_sub_cancel,
      List.getD_append_right X _ 0 X.length (Nat.le_refl _), Nat.sub_self]
  rfl

/-- Parse stage on a buffer holding a stop-notification frame (payload `t`,
length ≥ 3, first byte `T`) followed by a non-notification frame (payload
`r`): exactly one `onStateUpdated('paused')` event, and `r` is the value of
`ret`; the trailing checksum digits of the second frame stay in
`_pendingData` (those of the first are skipped by the `$`-scan). -/
lemma consume_stop_then_resp (t r : List Nat)
    (ht3 : 3 ≤ t.length) (htT : t.headD 0 = 84)
    (ht35 : 35 ∉ t) (hr35 : 35 ∉ r)
    (hr : r.length < 3 ∨ (r.headD 0 ≠ 84 ∧ r.headD 0 ≠ 79)) :
    rspConsumePackets (rspFrame t ++ rspFrame r) =
      ([RspEvent.statePaused], Except.ok (some r, checksumBytes (rspChecksum r))) := by
  have h1 : 35 ∉ (36 :: t) := by
    rw [List.mem_cons]; push_neg; exact ⟨by omega, ht35⟩
  have h2 : 35 ∉ checksumBytes (rspChecksum t) ++ 36 :: r := by
    rw [List.mem_append, List.mem_cons]; push_neg
    exact ⟨checksumBytes_not_hash _, by omega, hr35⟩
  have hbuf : rspFrame t ++ rspFrame r =
      (36 :: t) ++ 35 :: ((checksumBytes (rspChecksum t) ++ 36 :: r) ++
        35 :: checksumBytes (rspChecksum r)) := by
    simp [rspFrame, rspEscape]
  have hs : splitSegs (rspFrame t ++ rspFrame r) =
      ([36 :: t, checksumBytes (rspChecksum t) ++ 36 :: r],
       checksumBytes (rspChecksum r)) := by
    rw [hbuf, splitSegs_append_hash _ _ h1, splitSegs_append_hash _ _ h2,
        splitSegs_no_hash _ (checksumBytes_not_hash _)]
  have hcT : 3 ≤ t.length ∧ t.headD 0 = 84 := ⟨ht3, htT⟩
  have hc1 : ¬ (3 ≤ r.length ∧ r.headD 0 = 84) := by
    rcases hr with h | ⟨ha, _⟩
    · rintro ⟨hl, _⟩; omega
    · rintro ⟨_, he⟩; exact ha he
  have hc2 : ¬ (3 ≤ r.length ∧ r.headD 0 = 79) := by
    rcases hr with h | ⟨_, hb⟩
    · rintro ⟨hl, _⟩; omega
    · rintro ⟨_, he⟩; exact hb he
  have hd2 : dropAfterDollar (checksumBytes (rspChecksum t) ++ 36 :: r) = some r :=
    dropAfterDollar_append _ _ (checksumBytes_not_dollar _)
  have hp : processSegs [36 :: t, checksumBytes (rspChecksum t) ++ 36 :: r] none =
      ([RspEvent.statePaused], LoopExit.done (some r)) := by
    simp only [processSegs, dropAfterDollar_cons, hd2]
    rw [if_pos hcT, if_neg hc1, if_neg hc2]
  simp only [rspConsumePackets, hs, hp]

/-- **C4.** An in-session call whose response buffer holds a stop
notification (`T`-packet `t`) followed by the real response packet `r`:
the call sends its framed request once, the observer receives exactly one
state update — `onStateUpdated('paused')`, appearing in the trace before
the call returns — and the call returns exactly `r`. -/
theorem stop_then_response_single_update (t r data : List Nat)
    (ht3 : 3 ≤ t.length) (htT : t.headD 0 = 84)
    (ht35 : 35 ∉ t) (hr35 : 35 ∉ r)
    (hr : r.length < 3 ∨ (r.headD 0 ≠ 84 ∧ r.headD 0 ≠ 79)) :
    rspCallOp ⟨true, true, [], [false], [rspFrame t ++ rspFrame r]⟩ data false true =
      ([Act.peek false, Act.send [36], Act.send data, Act.send [35],
        Act.send (checksumBytes (rspChecksum data)),
        Act.recv (rspFrame t ++ rspFrame r),
        Act.uiState (some ExecState.paused)],
       CallRet.retBytes r,
       ⟨true, true, checksumBytes (rspChecksum r), [], []⟩) := by
  have hshape : rspFrame t ++ rspFrame r =
      (rspFrame t ++ 36 :: r) ++ 35 :: checksumBytes (rspChecksum r) := by
    simp [rspFrame, rspEscape]
  have hlen3 : 3 ≤ (rspFrame t ++ rspFrame r).length := by
    simp [rspFrame, rspEscape, checksumBytes]
    omega
  have hgetD : (rspFrame t ++ rspFrame r).getD
      ((rspFrame t ++ rspFrame r).length - 3) 0 = 35 := by
    rw [hshape]
    exact getD_endHash _ _
  have hne : rspFrame t ++ rspFrame r ≠ [] := by
    rw [hshape]; simp
  have hrl : recvLoopAux [] [rspFrame t ++ rspFrame r] =
      ([Act.recv (rspFrame t ++ rspFrame r)],
       RecvLoopRes.frame (rspFrame t ++ rspFrame r) []) := by
    simp only [recvLoopAux]
    rw [if_neg hne]
    simp only [List.nil_append]
    rw [if_pos hlen3, if_pos hgetD]
  have hcons := consume_stop_then_resp t r ht3 htT ht35 hr35 hr
  have hconsOp : rspConsumePacketsOp ⟨true, true, [], [], [rspFrame t ++ rspFrame r]⟩ =
      ([Act.recv (rspFrame t ++ rspFrame r), Act.uiState (some ExecState.paused)],
       Except.ok (some r, ⟨true, true, checksumBytes (rspChecksum r), [], []⟩)) := by
    simp only [rspConsumePacketsOp]
    rw [if_pos trivial]
    simp only [hrl, hcons]
    simp [eventActs]
  have hrecv : rspRecvPacketOp ⟨true, true, [], [], [rspFrame t ++ rspFrame r]⟩ =
      ([Act.recv (rspFrame t ++ rspFrame r), Act.uiState (some ExecState.paused)],
       Except.ok (r, ⟨true, true, checksumBytes (rspChecksum r), [], []⟩)) := by
    simp only [rspRecvPacketOp, List.length]
    simp only [rspRecvPacketFuel, hconsOp]
  simp only [rspCallOp]
  rw [if_pos trivial]
  have hchk : rspCheckUnexpectedOp ⟨true, true, [], [false], [rspFrame t ++ rspFrame r]⟩ =
      ([Act.peek false], Except.ok ⟨true, true, [], [], [rspFrame t ++ rspFrame r]⟩) := rfl
  simp only [hchk]
  simp [hrecv, rspEscape, rspUnescape]

/-- **C4 witness.** Stop notification `T05` followed by response `OK` for a
call with payload `g`: one `paused` update in the trace, return value `OK`. -/
theorem stop_then_response_single_update_witness :
    (3 ≤ [84, 48, 53].length ∧ [84, 48, 53].headD 0 = 84 ∧ 35 ∉ [84, 48, 53] ∧
     35 ∉ [79, 75] ∧ [79, 75].length < 3) ∧
    rspCallOp ⟨true, true, [], [false], [rspFrame [84, 48, 53] ++ rspFrame [79, 75]]⟩
        [103] false true =
      ([Act.peek false, Act.send [36], Act.send [103], Act.send [35],
        Act.send (checksumBytes (rspChecksum [103])),
        Act.recv (rspFrame [84, 48, 53] ++ rspFrame [79, 75]),
        Act.uiState (some ExecState.paused)],
       CallRet.retBytes [79, 75],
       ⟨true, true, checksumBytes (rspChecksum [79, 75]), [], []⟩) :=
  ⟨⟨by decide, by decide, by decide, by decide, by decide⟩,
   stop_then_response_single_update [84, 48, 53] [79, 75] [103]
     (by decide) (by decide) (by decide) (by decide) (Or.inl (by decide))⟩

/-- **C3 counterexample.** Two response frames `$A#00` and `$B#00` in one
buffer: the packet loop returns the *second* packet `B` and logs the
*first* packet `A` as ignored — not, as claimed, the other way round. -/
theorem first_response_not_returned :
    rspConsumePackets [36, 65, 35, 48, 48, 36, 66, 35, 48, 48] =
      ([RspEvent.ignored [65]], Except.ok (some [66], [48, 48])) ∧
    some [66] ≠ some [65] :=
  ⟨rfl, by decide⟩

/-- Fidelity of the split/rejoin pair: the segments and trailing remainder
reassemble to exactly the buffer they were split from, so the
`_pendingData` reported by a raising pass is the buffer's literal
unconsumed tail. -/
lemma splitSegs_joinHash :
    ∀ buf : List Nat, joinHash (splitSegs buf).1 (splitSegs buf).2 = buf := by
  intro buf
  induction buf with
  | nil => rfl
  | cons b bs ih =>
    by_cases hb : b = 35
    · subst hb
      simp [splitSegs, joinHash, ih]
    · simp only [splitSegs, if_neg hb]
      rcases hsb : splitSegs bs with ⟨segs, rem⟩
      rw [hsb] at ih
      cases segs with
      | nil =>
        simp only [joinHash] at ih ⊢
        rw [ih]
      | cons s segs =>
        simp only [joinHash, List.cons_append] at ih ⊢
        rw [ih]

/-- The packet loop's abort behavior at the raise, concretely: on the buffer
`$A#00$Ozz#00$B#00` the `O` packet's remainder `zz` is not hex, so
`binascii.Error` aborts the pass — the already-collected response `A` is
discarded without an `Ignored:` line, the later response `B` is never
delivered, and `_pendingData` is left holding `00$B#00`. -/
lemma consume_aborts_on_bad_log_packet :
    rspConsumePackets
        [36, 65, 35, 48, 48, 36, 79, 122, 122, 35, 48, 48, 36, 66, 35, 48, 48] =
      ([], Except.error [48, 48, 36, 66, 35, 48, 48]) := rfl

/-- Accumulator form: on a pass whose segments never raise
`binascii.Error`, the packet loop completes, its final `ret` is the last
non-notification packet (seeded with `acc`), and the `Ignored:` log lines
are exactly all the earlier ones, in order. -/
lemma processSegs_last :
    ∀ (segs : List (List Nat)) (acc : Option (List Nat)),
      (∀ seg ∈ segs, segRaises seg = false) →
      (processSegs segs acc).2 = LoopExit.done ((acc.toList ++ respPackets segs).getLast?) ∧
      ignoredPackets (processSegs segs acc).1 = (acc.toList ++ respPackets segs).dropLast := by
  intro segs
  induction segs with
  | nil =>
    intro acc _
    cases acc <;> simp [processSegs, respPackets, ignoredPackets]
  | cons seg rest ih =>
    intro acc h
    have hseg : segRaises seg = false := h seg (List.mem_cons_self seg rest)
    have hrest : ∀ s ∈ rest, segRaises s = false :=
      fun s hs => h s (List.mem_cons_of_mem _ hs)
    rcases hd : dropAfterDollar seg with _ | pkt
    · simp only [processSegs, respPackets, hd]
      obtain ⟨h1, h2⟩ := ih acc hrest
      refine ⟨h1, ?_⟩
      simpa [ignoredPackets] using h2
    · by_cases hT : 3 ≤ pkt.length ∧ pkt.headD 0 = 84
      · have hn : 3 ≤ pkt.length ∧ (pkt.headD 0 = 84 ∨ pkt.headD 0 = 79) :=
          ⟨hT.1, Or.inl hT.2⟩
        simp only [processSegs, respPackets, hd, if_pos hT, if_pos hn]
        obtain ⟨h1, h2⟩ := ih acc hrest
        refine ⟨h1, ?_⟩
        simpa [ignoredPackets] using h2
      · by_cases hO : 3 ≤ pkt.length ∧ pkt.headD 0 = 79
        · have hnr : ¬ (3 ≤ pkt.length ∧ pkt.headD 0 = 79 ∧
              unhexlify (pkt.drop 1) = none) := by
            have hx := hseg
            simp only [segRaises, hd, decide_eq_false_iff_not] at hx
            exact hx
          rcases hux : unhexlify (pkt.drop 1) with _ | txt
          · exact absurd ⟨hO.1, hO.2, hux⟩ hnr
          · have hn : 3 ≤ pkt.length ∧ (pkt.headD 0 = 84 ∨ pkt.headD 0 = 79) :=
              ⟨hO.1, Or.inr hO.2⟩
            simp only [processSegs, respPackets, hd, if_neg hT, if_pos hO, hux,
              if_pos hn]
            obtain ⟨h1, h2⟩ := ih acc hrest
            refine ⟨h1, ?_⟩
            simpa [ignoredPackets] using h2
        · have hn : ¬ (3 ≤ pkt.length ∧ (pkt.headD 0 = 84 ∨ pkt.headD 0 = 79)) := by
            rintro ⟨hl, he | he⟩
            · exact hT ⟨hl, he⟩
            · exact hO ⟨hl, he⟩
          simp only [processSegs, respPackets, hd, if_neg hT, if_neg hO, if_neg hn]
          obtain ⟨h1, h2⟩ := ih (some pkt) hrest
          cases acc with
          | none =>
            refine ⟨by simpa using h1, ?_⟩
            simpa using h2
          | some old =>
            refine ⟨?_, ?_⟩
            · simpa [List.getLast?_cons_cons] using h1
            · simp only [Option.toList, List.cons_append, List.nil_append] at h2 ⊢
              rw [List.dropLast_cons₂]
              simp [ignoredPackets] at h2 ⊢
              exact h2

/-- **C3 (amended).** On every buffer whose pass completes without raising
(no `O` log packet with an invalid hex remainder, which would abort the
pass with `binascii.Error` instead), the *last* non-notification packet is
the one kept as the call's response, and every *earlier* non-notification
packet is logged as `Ignored:` (and never delivered). -/
theorem returns_last_response (buf : List Nat)
    (h : ∀ seg ∈ (splitSegs buf).1, segRaises seg = false) :
    (rspConsumePackets buf).2 =
      Except.ok ((respPackets (splitSegs buf).1).getLast?, (splitSegs buf).2) ∧
    ignoredPackets (rspConsumePackets buf).1 =
      (respPackets (splitSegs buf).1).dropLast := by
  obtain ⟨h1, h2⟩ := processSegs_last (splitSegs buf).1 none h
  simp only [Option.toList_none, List.nil_append] at h1 h2
  have hm : processSegs (splitSegs buf).1 none =
      ((processSegs (splitSegs buf).1 none).1,
       LoopExit.done ((respPackets (splitSegs buf).1).getLast?)) := by
    rw [← h1]
  have hc : rspConsumePackets buf =
      ((processSegs (splitSegs buf).1 none).1,
       Except.ok ((respPackets (splitSegs buf).1).getLast?, (splitSegs buf).2)) := by
    simp only [rspConsumePackets]
    rw [hm]
  refine ⟨?_, ?_⟩
  · rw [hc]
  · rw [hc]
    exact h2

/-- **C3 witness.** The two-response buffer `$A#00$B#00` raises nowhere;
the theorem applies and yields `B` as the response with `A` ignored. -/
theorem returns_last_response_witness :
    (∀ seg ∈ (splitSegs [36, 65, 35, 48, 48, 36, 66, 35, 48, 48]).1,
        segRaises seg = false) ∧
    ((rspConsumePackets [36, 65, 35, 48, 48, 36, 66, 35, 48, 48]).2 =
       Except.ok
         ((respPackets (splitSegs [36, 65, 35, 48, 48, 36, 66, 35, 48, 48]).1).getLast?,
          (splitSegs [36, 65, 35, 48, 48, 36, 66, 35, 48, 48]).2) ∧
     ignoredPackets (rspConsumePackets [36, 65, 35, 48, 48, 36, 66, 35, 48, 48]).1 =
       (respPackets (splitSegs [36, 65, 35, 48, 48, 36, 66, 35, 48, 48]).1).dropLast) := by
  have hw : ∀ seg ∈ (splitSegs [36, 65, 35, 48, 48, 36, 66, 35, 48, 48]).1,
      segRaises seg = false := by
    intro seg hs
    have he : (splitSegs [36, 65, 35, 48, 48, 36, 66, 35, 48, 48]).1 =
        [[36, 65], [48, 48, 36, 66]] := rfl
    rw [he] at hs
    simp only [List.mem_cons, List.mem_singleton] at hs
    rcases hs with rfl | rfl | hs
    · rfl
    · rfl
    · exact absurd hs (List.not_mem_nil seg)
  exact ⟨hw, returns_last_response _ hw⟩

/-- **C5 counterexample.** Stream closes mid-read during a call: the caller
gets a plain `None` return — no `ConnectionLost` (or any) exception reaches
it — and the observer's null-state callback `onStateUpdated(None)` runs
*twice* (once from the empty-read disconnect inside `_rspConsumePackets`,
once from the `except` handler's `disconnect()`), not exactly once. -/
theorem midread_close_two_null_updates :
    ((rspCallOp ⟨true, true, [], [false], [[]]⟩ [103] false true).1.count
        (Act.uiState none) = 2) ∧
    (rspCallOp ⟨true, true, [], [false], [[]]⟩ [103] false true).2.1 = CallRet.retNone := by
  decide

/-- **C5 (amended).** For any payload, when the stream closes mid-read
during an in-session call the client sends the request exactly once (never
retries), `disconnect()` runs so the session ends Disconnected with the
socket closed, the observer gets the null-state update twice, and the
error is swallowed: `rspCall` returns `None` instead of raising
`ConnectionLost`. -/
theorem midread_close_call_swallows_error (data : List Nat) :
    rspCallOp ⟨true, true, [], [false], [[]]⟩ data false true =
      ([Act.peek false, Act.send [36], Act.send data, Act.send [35],
        Act.send (checksumBytes (rspChecksum data)), Act.recv [],
        Act.sockClose, Act.uiState none, Act.recvErrClosed,
        Act.sockClose, Act.uiState none],
       CallRet.retNone, ⟨false, false, [], [], []⟩) := rfl

/-- **C6 counterexample.** With a single buffered partial frame `$ab`,
`poll()`'s non-blocking peek reports data, whereupon
`_rspConsumePackets` issues a *blocking* `recv` that waits the full
10-second socket timeout — `poll()` does block. -/
theorem poll_blocks_on_partial_frame :
    (pollOp ⟨true, true, [], [true], [[36, 97, 98]]⟩).1 =
      [Act.peek true, Act.recv [36, 97, 98], Act.recvBlockedTimeout,
       Act.sockClose, Act.uiState none] ∧
    Act.recvBlockedTimeout ∈ (pollOp ⟨true, true, [], [true], [[36, 97, 98]]⟩).1 := by
  refine ⟨rfl, ?_⟩
  have h : (pollOp ⟨true, true, [], [true], [[36, 97, 98]]⟩).1 =
      [Act.peek true, Act.recv [36, 97, 98], Act.recvBlockedTimeout,
       Act.sockClose, Act.uiState none] := rfl
  rw [h]
  simp

lemma recvLoopAux_no_send :
    ∀ (chunks : List (List Nat)) (pending : List Nat),
      ∀ a ∈ (recvLoopAux pending chunks).1, isSendAct a = false := by
  intro chunks
  induction chunks with
  | nil =>
    intro pending a ha
    simp only [recvLoopAux, List.mem_singleton] at ha
    subst ha; rfl
  | cons d rest ih =>
    intro pending a ha
    simp only [recvLoopAux] at ha
    split at ha
    · simp only [List.mem_singleton] at ha
      subst ha; rfl
    · split at ha
      · split at ha
        · simp only [List.mem_singleton] at ha
          subst ha; rfl
        · rcases List.mem_cons.mp ha with h | h
          · subst h; rfl
          · exact ih _ a h
      · simp only [List.mem_singleton] at ha
        subst ha; rfl

lemma eventActs_no_send (evs : List RspEvent) :
    ∀ a ∈ eventActs evs, isSendAct a = false := by
  intro a ha
  simp only [eventActs, List.mem_filterMap] at ha
  obtain ⟨e, _, he⟩ := ha
  cases e <;> simp_all [isSendAct]
  exact he ▸ rfl

lemma disconnectOp_no_send (c : Conn) :
    ∀ a ∈ (disconnectOp c).1, isSendAct a = false := by
  intro a ha
  rcases List.mem_cons.mp ha with h | h
  · subst h; rfl
  · simp only [List.mem_singleton] at h
    subst h; rfl

lemma consumePacketsOp_no_send (c : Conn) :
    ∀ a ∈ (rspConsumePacketsOp c).1, isSendAct a = false := by
  intro a ha
  simp only [rspConsumePacketsOp] at ha
  split at ha
  · split at ha
    next as e p rest heq =>
      have hr := recvLoopAux_no_send c.chunks c.pending
      rw [heq] at hr
      exact hr a (by simpa using ha)
    next as p rest heq =>
      rcases List.mem_append.mp (by simpa using ha) with h | h
      · have hr := recvLoopAux_no_send c.chunks c.pending
        rw [heq] at hr
        exact hr a h
      · exact disconnectOp_no_send _ a h
    next as p rest heq =>
      split at ha
      next evs ret pd heq2 =>
        rcases List.mem_append.mp (by simpa using ha) with h | h
        · have hr := recvLoopAux_no_send c.chunks c.pending
          rw [heq] at hr
          exact hr a h
        · exact eventActs_no_send _ a h
      next evs pd heq2 =>
        rcases List.mem_append.mp (by simpa using ha) with h | h
        · have hr := recvLoopAux_no_send c.chunks c.pending
          rw [heq] at hr
          exact hr a h
        · exact eventActs_no_send _ a h
  · simp only [List.mem_singleton] at ha
    subst ha; rfl

lemma checkUnexpectedOp_no_send (c : Conn) :
    ∀ a ∈ (rspCheckUnexpectedOp c).1, isSendAct a = false := by
  intro a ha
  simp only [rspCheckUnexpectedOp] at ha
  split at ha
  · split at ha
    · split at ha
      next as ec heq =>
        rcases List.mem_cons.mp ha with h | h
        · subst h; rfl
        · have hc := consumePacketsOp_no_send { c with peeks := c.peeks.tail }
          rw [heq] at hc
          exact hc a (by simpa using h)
      next as o c2 heq =>
        rcases List.mem_cons.mp ha with h | h
        · subst h; rfl
        · have hc := consumePacketsOp_no_send { c with peeks := c.peeks.tail }
          rw [heq] at hc
          exact hc a (by simpa using h)
    · simp only [List.mem_singleton] at ha
      subst ha; rfl
  · simp at ha

/-- **C6 (amended).** In every state — connected or not, whatever is
buffered — `poll()` writes no outbound bytes: no trace act of a `poll` run
is a `send`.  (It is *not* non-blocking: see the counterexample.) -/
theorem poll_never_sends (c : Conn) : ∀ a ∈ (pollOp c).1, isSendAct a = false := by
  intro a ha
  simp only [pollOp] at ha
  split at ha
  · split at ha
    next as c1 heq =>
      have hc := checkUnexpectedOp_no_send c
      rw [heq] at hc
      exact hc a (by simpa using ha)
    next as ec heq =>
      rcases List.mem_append.mp (by simpa using ha) with h | h
      · have hc := checkUnexpectedOp_no_send c
        rw [heq] at hc
        exact hc a h
      · exact disconnectOp_no_send _ a h
  · simp at ha

/-- **C6 witness.** A concrete `poll` trace and one of its acts. -/
theorem poll_never_sends_witness :
    Act.peek true ∈ (pollOp ⟨true, true, [], [true], [[36, 97, 98]]⟩).1 ∧
    isSendAct (Act.peek true) = false := by
  constructor
  · have h : (pollOp ⟨true, true, [], [true], [[36, 97, 98]]⟩).1 =
        [Act.peek true, Act.recv [36, 97, 98], Act.recvBlockedTimeout,
         Act.sockClose, Act.uiState none] := rfl
    rw [h]; simp
  · exact poll_never_sends _ (Act.peek true) (by
      have h : (pollOp ⟨true, true, [], [true], [[36, 97, 98]]⟩).1 =
          [Act.peek true, Act.recv [36, 97, 98], Act.recvBlockedTimeout,
           Act.sockClose, Act.uiState none] := rfl
      rw [h]; simp)

/-- **C7 counterexample.** `pause()` with a stop-notification frame already
queued on the transport: the whole trace is the single raw send of `0x03`
— no receive of any kind — and it returns immediately with the stop
notification still unread in the transport script; it does not block
waiting for the stop notification. -/
theorem pause_returns_without_waiting :
    pauseOp ⟨true, true, [], [], [rspFrame [84, 48, 53]]⟩ =
      ([Act.send [3]], Except.ok (true, ⟨true, true, [], [], [rspFrame [84, 48, 53]]⟩)) := rfl

/-- **C7 (amended).** On any open socket, `pause()` sends exactly the single
raw interrupt byte `0x03`, unframed and bypassing the call machinery, and
returns `True` at once with the connection state untouched — it performs
no wait; the resulting stop notification is only picked up by later
`poll()`/call processing. -/
theorem pause_sends_raw_interrupt (c : Conn) (h : c.sockOpen = true) :
    pauseOp c = ([Act.send [3]], Except.ok (true, c)) := by
  simp [pauseOp, h]

/-- **C7 witness.** -/
theorem pause_sends_raw_interrupt_witness :
    (⟨true, true, [], [], []⟩ : Conn).sockOpen = true ∧
    pauseOp ⟨true, true, [], [], []⟩ =
      ([Act.send [3]], Except.ok (true, (⟨true, true, [], [], []⟩ : Conn))) :=
  ⟨rfl, pause_sends_raw_interrupt _ rfl⟩

/-- **C9.** `read(0x1000, 4)` builds the payload `m1000,4` (lowercase hex,
no padding), frames it as `$m1000,4#8e`, and — fed the response frame
`$deadbeef#20` — returns the bytes `DE AD BE EF` in transmitted order. -/
theorem readMemory_scenario :
    readPayload 4096 4 = [109, 49, 48, 48, 48, 44, 52] ∧
    rspFrame (readPayload 4096 4) = [36, 109, 49, 48, 48, 48, 44, 52, 35, 56, 101] ∧
    readOp ⟨true, true, [], [false],
        [[36, 100, 101, 97, 100, 98, 101, 101, 102, 35, 50, 48]]⟩ 4096 4 =
      ([Act.peek false, Act.send [36], Act.send [109, 49, 48, 48, 48, 44, 52], Act.send [35],
        Act.send [56, 101],
        Act.recv [36, 100, 101, 97, 100, 98, 101, 101, 102, 35, 50, 48]],
       some [222, 173, 190, 239],
       ⟨true, true, [50, 48], [], []⟩) := by
  decide

end PyRvDbg
